import Mathlib

/-!
# Verification of the Glacier-Explorer velocity / Q&A core

Shallow embedding of the logic-bearing parts of the repository:

* `src/llm_core.py` — `GlacierVelocityEngine.calculate_velocity`, the
  `render_manual_velocity_interface` click handler, `GlacierQA.create_context`
  and `GlacierQA.suggest_questions`;
* `src/app.py` — the analysis-radius slider and the AI-assistant tab wiring.

The hosted Earth-Engine backend is modelled as a record of (deterministic)
query functions (`GeoBackend`); every server round-trip the Python code makes
is recorded in an explicit `GeoEvent` trace so that "no backend call" /
"call ordering" properties can be stated.  Python `datetime` parsing and
arithmetic is embedded over day numbers of the proleptic Gregorian calendar;
Python numeric dict values are embedded by the `PyVal` type; float `%.Nf`
formatting is embedded as exact decimal rounding of rationals/reals.
-/

deriving instance DecidableEq for Except

/-! ## Calendar model (Python `datetime.date` / `strptime` / `strftime`) -/

/-- Gregorian leap-year test, as Python's `calendar.isleap`. -/
def isLeap (y : ℕ) : Bool :=
  y % 4 = 0 && (y % 100 != 0 || y % 400 = 0)

/-- Number of days in month `m` of year `y` (Gregorian). -/
def daysInMonth (y m : ℕ) : ℕ :=
  if m = 2 then (if isLeap y then 29 else 28)
  else if m = 4 ∨ m = 6 ∨ m = 9 ∨ m = 11 then 30
  else 31

/-- Day number (days since 1970-01-01) of the Gregorian date `y-m-d`.
Standard civil-calendar conversion; embeds Python `date` subtraction:
`(dateA - dateB).days = daysFromCivil A - daysFromCivil B`. -/
def daysFromCivil (y : ℤ) (m d : ℕ) : ℤ :=
  let y2 : ℤ := if m ≤ 2 then y - 1 else y
  let era : ℤ := Int.fdiv y2 400
  let yoe : ℕ := (y2 - era * 400).toNat
  let mp : ℕ := if m > 2 then m - 3 else m + 9
  let doy : ℕ := (153 * mp + 2) / 5 + d - 1
  let doe : ℕ := yoe * 365 + yoe / 4 - yoe / 100 + doy
  era * 146097 + (doe : ℤ) - 719468

/-- Inverse of `daysFromCivil`: the Gregorian date `(y, m, d)` of a day
number. -/
def civilFromDays (z0 : ℤ) : ℤ × ℕ × ℕ :=
  let z : ℤ := z0 + 719468
  let era : ℤ := Int.fdiv z 146097
  let doe : ℕ := (z - era * 146097).toNat
  let yoe : ℕ := (doe - doe / 1460 + doe / 36524 - doe / 146096) / 365
  let y : ℤ := (yoe : ℤ) + era * 400
  let doy : ℕ := doe - (365 * yoe + yoe / 4 - yoe / 100)
  let mp : ℕ := (5 * doy + 2) / 153
  let d : ℕ := doy - (153 * mp + 2) / 5 + 1
  let m : ℕ := if mp < 10 then mp + 3 else mp - 9
  (if m ≤ 2 then y + 1 else y, m, d)

/-- Left-pad the decimal rendering of `n` with zeros to width `w`. -/
def padZeros (w : ℕ) (n : ℕ) : String :=
  let s := toString n
  String.mk (List.replicate (w - s.length) '0') ++ s

/-- Python `date.strftime("%Y-%m-%d")` on a day number. -/
def fmtDate (z : ℤ) : String :=
  let c := civilFromDays z
  let ys := if c.1 < 0 then "-" ++ padZeros 4 c.1.natAbs else padZeros 4 c.1.toNat
  ys ++ "-" ++ padZeros 2 c.2.1 ++ "-" ++ padZeros 2 c.2.2

/-- Python `datetime.strptime(s, "%Y-%m-%d")`, returning the day number of
the parsed date, or the `ValueError` message text.  Mirrors `strptime`'s
format regex (1–4 digit year, month 1–12, day 1–31) followed by the
`date` constructor's range check. -/
def splitDash : List Char → List (List Char)
  | [] => [[]]
  | c :: t =>
    if c = '-' then [] :: splitDash t
    else
      match splitDash t with
      | [] => [[c]]
      | h :: r => (c :: h) :: r

/-- Decimal value of a digit string. -/
def digitsToNat (l : List Char) : ℕ :=
  l.foldl (fun acc c => acc * 10 + (c.toNat - 48)) 0

/-- Is this a nonempty all-digit group of at most `w` characters? -/
def digitGroup (w : ℕ) (l : List Char) : Bool :=
  decide (0 < l.length) && decide (l.length ≤ w) && l.all Char.isDigit

def parseDate (s : String) : Except String ℤ :=
  let bad : Except String ℤ :=
    Except.error ("time data '" ++ s ++ "' does not match format '%Y-%m-%d'")
  match splitDash s.data with
  | [ys, ms, ds] =>
    if ¬ (digitGroup 4 ys ∧ digitGroup 2 ms ∧ digitGroup 2 ds) then bad
    else
      let y := digitsToNat ys
      let m := digitsToNat ms
      let d := digitsToNat ds
      if m < 1 ∨ 12 < m then bad
      else if d < 1 ∨ 31 < d then bad
      else if y < 1 then Except.error "year 0 is out of range"
      else if daysInMonth y m < d then Except.error "day is out of range for month"
      else Except.ok (daysFromCivil (y : ℤ) m d)
  | _ => bad

/-! ## Decimal formatting (Python `f"{x:.Nf}"`) -/

/-- Render `n / 10^prec` as a fixed-point decimal string. -/
def renderScaled (prec : ℕ) (n : ℤ) : String :=
  (if n < 0 then "-" else "") ++
    toString (n.natAbs / 10 ^ prec) ++ "." ++ padZeros prec (n.natAbs % 10 ^ prec)

/-- Python `f"{q:.{prec}f}"` for an exact rational value: round at the
`prec`-th decimal and render. -/
def formatFixed (prec : ℕ) (q : ℚ) : String :=
  renderScaled prec (round (q * (10 : ℚ) ^ prec))

/-! ## Python value model (dict values reaching the Q&A / display layer) -/

/-- A Python `float` value: finite (embedded exactly as a rational) or one of
the non-finite floats. -/
inductive PyFloat
  | finite (q : ℚ)
  | nan
  | inf
  | ninf
deriving DecidableEq

/-- A Python value as stored in the dicts this program passes around.
`opaqueV` stands for non-primitive objects (rasters, feature collections,
tuples) whose content the Q&A text layer never inspects. -/
inductive PyVal
  | pynone
  | bool (b : Bool)
  | int (i : ℤ)
  | float (f : PyFloat)
  | str (s : String)
  | opaqueV
deriving DecidableEq

/-- A Python dict (insertion-ordered association list, keys unique by use). -/
abbrev PyDict := List (String × PyVal)

/-- Python `d[k]` lookup as used via `d.get(k)`: `none` when the key is
absent (Python returns `None`). -/
def PyDict.get (d : PyDict) (k : String) : Option PyVal :=
  (d.find? (fun e => e.1 == k)).map (fun e => e.2)

/-- Python `d.get(k, default)`. -/
def PyDict.getD (d : PyDict) (k : String) (v : PyVal) : PyVal :=
  (PyDict.get d k).getD v

/-- Python `isinstance(v, (int, float))` (`bool` is a subclass of `int`). -/
def pyIsNumber : PyVal → Bool
  | .bool _ => true
  | .int _ => true
  | .float _ => true
  | _ => false

/-- Python `f"{v:.{prec}f}"` on a value satisfying `pyIsNumber`
(non-finite floats format as `nan` / `inf` / `-inf`). -/
def pyFormatNum (prec : ℕ) : PyVal → String
  | .bool b => formatFixed prec (if b then 1 else 0)
  | .int i => formatFixed prec (i : ℚ)
  | .float (.finite q) => formatFixed prec q
  | .float .nan => "nan"
  | .float .inf => "inf"
  | .float .ninf => "-inf"
  | _ => ""

/-- Python `f"{v}"` (`str(v)`) rendering.  For finite floats the exact
rational is rendered; no claim depends on float `repr` digits. -/
def pyStr : PyVal → String
  | .pynone => "None"
  | .bool b => if b then "True" else "False"
  | .int i => toString i
  | .float (.finite q) => toString q
  | .float .nan => "nan"
  | .float .inf => "inf"
  | .float .ninf => "-inf"
  | .str s => s
  | .opaqueV => "<object>"

/-! ## Geo-backend model (Earth Engine collaborator of `GlacierVelocityEngine`) -/

/-- Pixel coordinates of the raster plane. -/
abbrev Pixel := ℤ × ℤ

/-- `ee.Geometry.Point([lon, lat]).buffer(radius_m)`: a disk geometry of
radius `radius_m` meters centered at `(lon, lat)`. -/
structure Geom where
  lon : ℚ
  lat : ℚ
  radius_m : ℚ
deriving DecidableEq

/-- The analysis-area geometry of `calculate_velocity`:
`point = ee.Geometry.Point([lon, lat]); aoi = point.buffer(buffer_km * 1000)`. -/
def mkAoi (lat lon buffer_km : ℚ) : Geom :=
  ⟨lon, lat, buffer_km * 1000⟩

/-- One backend interaction performed by the velocity pipeline, recorded in
order of execution. -/
inductive GeoEvent
  | sizeQuery (aoi : Geom) (startD stopD : String)
  | imageSelect (aoi : Geom) (startD stopD : String)
  | displacementCall (band : String) (maxOffset patchWidth : ℕ)
  | glacierQuery (aoi : Geom)
  | reduceQuery (aoi : Geom) (scale : ℕ)
deriving DecidableEq

/-- The hosted geo backend, as a record of deterministic query functions.
`Except String` models a raised exception of the client library. -/
structure GeoBackend where
  /-- `self._get_sentinel2_collection(aoi, start, stop).size().getInfo()`:
  the number of cloud-masked Sentinel-2 scenes (cloud cover < 20%,
  QA60 bits 10/11 clear) intersecting `aoi` in the date range. -/
  collectionSize : Geom → String → String → Except String ℕ
  /-- `col.sort('CLOUDY_PIXEL_PERCENTAGE').first()`: an opaque handle to the
  lowest-cloud image of the window's collection (lazy, no server call). -/
  bestImage : Geom → String → String → ℕ
  /-- `img2.select(band).displacement(referenceImage=img1.select(band),
  maxOffset, patchWidth)`: per-pixel `(dx, dy)` in meters; `none` where the
  displacement raster is masked. -/
  displacement : ℕ → ℕ → String → ℕ → ℕ → Pixel → Option (ℚ × ℚ)
  /-- `ee.FeatureCollection("GLIMS/20230607").filterBounds(aoi)`: the glacier
  polygons intersecting `aoi`, each as a pixel-membership predicate. -/
  glaciers : Geom → Except String (List (Pixel → Bool))
  /-- The sample grid enumerated by `reduceRegion(..., geometry, scale)`
  within the geometry at the given scale. -/
  samplePixels : Geom → ℕ → Except String (List Pixel)

/-- `ee.Image(0).paint(glaciers, 1).gt(0)` at a pixel: true iff the pixel is
inside at least one glacier polygon. -/
def glacierMask (polys : List (Pixel → Bool)) (p : Pixel) : Bool :=
  polys.any (fun g => g p)

/-- `dx.hypot(dy)`: Euclidean magnitude of a displacement sample. -/
noncomputable def hypotR (a b : ℚ) : ℝ :=
  Real.sqrt ((a : ℝ) ^ 2 + (b : ℝ) ^ 2)

/-- `dx.hypot(dy).divide(time_gap_days)`: the unmasked speed raster
(m/day) from the displacement output of the backend. -/
noncomputable def speedRaster (B : GeoBackend) (img2 img1 : ℕ) (tg : ℕ) :
    Pixel → Option ℝ :=
  fun p => (B.displacement img2 img1 ("B8") 100 256 p).map
    (fun v => hypotR v.1 v.2 / (tg : ℝ))

/-- `raster.updateMask(glacier_mask)`: pixels outside every polygon become
no-data. -/
def maskedBy (r : Pixel → Option ℝ) (polys : List (Pixel → Bool)) :
    Pixel → Option ℝ :=
  fun p => if glacierMask polys p then r p else none

/-- Mean of the unmasked sample values (`ee.Reducer.mean()`); `none` when no
unmasked pixel was sampled (Earth Engine returns `null`). -/
noncomputable def listMean (l : List ℝ) : Option ℝ :=
  if l.isEmpty then none else some (l.sum / (l.length : ℝ))

/-- Minimum of the unmasked sample values (`ee.Reducer.minMax()`). -/
noncomputable def listMin (l : List ℝ) : Option ℝ :=
  l.foldr (fun x acc => match acc with
    | none => some x
    | some y => some (min x y)) none

/-- Maximum of the unmasked sample values (`ee.Reducer.minMax()`). -/
noncomputable def listMax (l : List ℝ) : Option ℝ :=
  l.foldr (fun x acc => match acc with
    | none => some x
    | some y => some (max x y)) none

/-- The `getInfo()` dict of
`reduceRegion(ee.Reducer.mean().combine(ee.Reducer.minMax(), '', True), ...)`
on the band renamed `velocity`. -/
structure VelocityStats where
  velocity_mean : Option ℝ
  velocity_min : Option ℝ
  velocity_max : Option ℝ

/-- Zonal statistics over the sampled, unmasked speed values. -/
noncomputable def reduceStats (vals : List ℝ) : VelocityStats :=
  ⟨listMean vals, listMin vals, listMax vals⟩

/-- The fields of the `{'success': True, ...}` dict of `calculate_velocity`. -/
structure VelocitySuccess where
  velocity_m_day : Pixel → Option ℝ
  glacier_polygons : List (Pixel → Bool)
  time_gap_days : ℕ
  stats : VelocityStats
  analysis_dates : String × String

/-- The result dict of `calculate_velocity`: `{'success': False, 'error': e}`
or `{'success': True, ...}`. -/
inductive VelocityResult
  | failure (error : String)
  | success (f : VelocitySuccess)

/-- The `success` flag of a result dict. -/
def isSuccess : VelocityResult → Bool
  | .failure _ => false
  | .success _ => true

/-- The `time_gap_days` field of a success dict. -/
def timeGapOf : VelocityResult → Option ℕ
  | .failure _ => none
  | .success f => some f.time_gap_days

/-- `self.window_days` of `GlacierVelocityEngine`. -/
def window_days : ℤ := 30

/-- `(dt - timedelta(days=self.window_days)).strftime("%Y-%m-%d")`. -/
def windowStart (dt : ℤ) : String := fmtDate (dt - window_days)

/-- `(dt + timedelta(days=self.window_days)).strftime("%Y-%m-%d")`. -/
def windowStop (dt : ℤ) : String := fmtDate (dt + window_days)

/-- `time_gap_days = abs((dt2 - dt1).days); if time_gap_days == 0:
time_gap_days = 1` (llm_core.py 144–145). -/
def clampGap (dt1 dt2 : ℤ) : ℕ :=
  if (dt2 - dt1).natAbs = 0 then 1 else (dt2 - dt1).natAbs

/-- The `InsufficientImagery` error message, with both window counts. -/
def insufficientMsg (n1 n2 : ℕ) : String :=
  "Insufficient cloud-free images found. Period 1 had " ++ toString n1 ++
    " images, Period 2 had " ++ toString n2 ++ ". Try different dates."

/-- The `NoGlacierCoverage` error message. -/
def noGlaciersMsg : String :=
  "No GLIMS glacier polygons found in the analysis area."

/-! ## `GlacierVelocityEngine.calculate_velocity` (llm_core.py 122–162) -/

/-- The body of the `try:` block of `calculate_velocity`, together with the
ordered trace of backend interactions.  `Except.error e` models an exception
propagating out of the block; `Except.ok r` models a `return`.
The two `col.size().getInfo()` values are each bound once (the Python code
re-queries the same deterministic lazy collection inside the f-string). -/
noncomputable def calcBody (B : GeoBackend) (lat lon : ℚ)
    (date1 date2 : String) (buffer_km : ℚ) :
    List GeoEvent × Except String VelocityResult :=
  let aoi := mkAoi lat lon buffer_km
  match parseDate date1 with
  | .error e => ([], .error e)
  | .ok dt1 =>
  match parseDate date2 with
  | .error e => ([], .error e)
  | .ok dt2 =>
  let w1s := windowStart dt1
  let w1e := windowStop dt1
  let w2s := windowStart dt2
  let w2e := windowStop dt2
  match B.collectionSize aoi w1s w1e with
  | .error e => ([.sizeQuery aoi w1s w1e], .error e)
  | .ok n1 =>
  match B.collectionSize aoi w2s w2e with
  | .error e => ([.sizeQuery aoi w1s w1e, .sizeQuery aoi w2s w2e], .error e)
  | .ok n2 =>
  if n1 = 0 ∨ n2 = 0 then
    ([.sizeQuery aoi w1s w1e, .sizeQuery aoi w2s w2e],
      .ok (.failure (insufficientMsg n1 n2)))
  else
    let img1 := B.bestImage aoi w1s w1e
    let img2 := B.bestImage aoi w2s w2e
    let time_gap_days : ℕ := clampGap dt1 dt2
    let speed_m_day := speedRaster B img2 img1 time_gap_days
    match B.glaciers aoi with
    | .error e =>
        ([.sizeQuery aoi w1s w1e, .sizeQuery aoi w2s w2e,
          .imageSelect aoi w1s w1e, .imageSelect aoi w2s w2e,
          .displacementCall ("B8") 100 256, .glacierQuery aoi], .error e)
    | .ok polys =>
    if polys.length = 0 then
      ([.sizeQuery aoi w1s w1e, .sizeQuery aoi w2s w2e,
        .imageSelect aoi w1s w1e, .imageSelect aoi w2s w2e,
        .displacementCall ("B8") 100 256, .glacierQuery aoi],
        .ok (.failure noGlaciersMsg))
    else
      let speed_final := maskedBy speed_m_day polys
      match B.samplePixels aoi 100 with
      | .error e =>
          ([.sizeQuery aoi w1s w1e, .sizeQuery aoi w2s w2e,
            .imageSelect aoi w1s w1e, .imageSelect aoi w2s w2e,
            .displacementCall ("B8") 100 256, .glacierQuery aoi,
            .reduceQuery aoi 100], .error e)
      | .ok samples =>
          ([.sizeQuery aoi w1s w1e, .sizeQuery aoi w2s w2e,
            .imageSelect aoi w1s w1e, .imageSelect aoi w2s w2e,
            .displacementCall ("B8") 100 256, .glacierQuery aoi,
            .reduceQuery aoi 100],
            .ok (.success ⟨speed_final, polys, time_gap_days,
              reduceStats (samples.filterMap speed_final), (date1, date2)⟩))

/-- `calculate_velocity(self, lat, lon, date1, date2, buffer_km)`: the `try`
body with its `except Exception` wrapper, which converts any raised
exception into `{'success': False, 'error': f'Velocity calculation failed:
{e}'}`.  Also returns the backend-interaction trace. -/
noncomputable def calculate_velocity (B : GeoBackend) (lat lon : ℚ)
    (date1 date2 : String) (buffer_km : ℚ) :
    VelocityResult × List GeoEvent :=
  match calcBody B lat lon date1 date2 buffer_km with
  | (t, .ok r) => (r, t)
  | (t, .error e) => (.failure ("Velocity calculation failed: " ++ e), t)

/-! ## Presentation layer (llm_core.py 180–211, app.py 145–149) -/

/-- The Streamlit session state slots this analysis touches. -/
structure SessionState where
  velocity_result : Option VelocityResult

/-- The "Calculate Velocity" button handler of
`render_manual_velocity_interface` (llm_core.py 189–197): reject
`date1 >= date2` with an inline error, otherwise call
`engine.calculate_velocity(location['lat'], location['lon'],
date1.strftime("%Y-%m-%d"), date2.strftime("%Y-%m-%d"), 5)` — the buffer
argument is the literal `5`, not the sidebar "Analysis Radius (km)" slider
value of app.py line 147 — and store the result in
`st.session_state.velocity_result`.  Returns (new session state, inline
error messages shown, backend trace). -/
noncomputable def velocityClick (B : GeoBackend) (lat lon : ℚ)
    (date1 date2 : ℤ) (s : SessionState) :
    SessionState × List String × List GeoEvent :=
  if date2 ≤ date1 then
    (s, ["End date must be after start date."], [])
  else
    let r := calculate_velocity B lat lon (fmtDate date1) (fmtDate date2) 5
    (⟨some r.1⟩, [], r.2)

/-- Python `f"{x:.{prec}f}"` for a real value. -/
noncomputable def formatFixedR (prec : ℕ) (x : ℝ) : String :=
  renderScaled prec (round (x * (10 : ℝ) ^ prec))

/-- The three `st.metric` strings of the success branch of
`render_manual_velocity_interface` (llm_core.py 201–209):
`mean_vel = stats.get('velocity_mean', 0) or 0` (and likewise for max) —
`or 0` coalesces a `None` stat to `0` and is value-wise the identity on
numbers — then `f"{mean_vel:.2f} m/day"`, `f"{max_vel:.2f} m/day"`,
`f"{mean_vel * 365.25:.1f} m/year"`. -/
noncomputable def velocityMetrics : VelocityResult → Option (String × String × String)
  | .failure _ => none
  | .success f =>
    let mean_vel : ℝ := (f.stats.velocity_mean).getD 0
    let max_vel : ℝ := (f.stats.velocity_max).getD 0
    some (formatFixedR 2 mean_vel ++ " m/day",
          formatFixedR 2 max_vel ++ " m/day",
          formatFixedR 1 (mean_vel * 365.25) ++ " m/year")

/-- Helper for stating "every recorded backend call used this analysis
area" (the displacement step carries no geometry). -/
def eventUsesAoi (a : Geom) : GeoEvent → Bool
  | .sizeQuery aoi _ _ => aoi == a
  | .imageSelect aoi _ _ => aoi == a
  | .displacementCall _ _ _ => true
  | .glacierQuery aoi => aoi == a
  | .reduceQuery aoi _ => aoi == a

/-- Is this event the zonal-statistics (`reduceRegion`) call? -/
def isReduceQuery : GeoEvent → Bool
  | .reduceQuery _ _ => true
  | _ => false

/-- No zonal-statistics call occurs in the trace. -/
def noReduceQuery (t : List GeoEvent) : Bool :=
  t.all (fun e => !(isReduceQuery e))

/-! ## `GlacierQA` context builder (llm_core.py 24–99) and AI tab (app.py 224–233) -/

/-- The truthiness Python gives a dict value (`if v:`). -/
def pyTruthy : PyVal → Bool
  | .pynone => false
  | .bool b => b
  | .int i => i != 0
  | .float (.finite q) => q != 0
  | .float _ => true
  | .str s => s.length != 0
  | .opaqueV => true

/-- Python `format(v, ".{prec}f")` as an `Except`: formatting a
non-numeric value with a float format spec raises. -/
def pyFormatF (prec : ℕ) : PyVal → Except String String
  | .bool b => .ok (formatFixed prec (if b then 1 else 0))
  | .int i => .ok (formatFixed prec (i : ℚ))
  | .float f => .ok (pyFormatNum prec (.float f))
  | _ => .error "unsupported format string passed to non-numeric value"

/-- Python `v - c` for a float constant `c`: raises on non-numeric `v`;
non-finite floats absorb the subtraction. -/
def pySub (c : ℚ) : PyVal → Except String PyVal
  | .bool b => .ok (.float (.finite ((if b then 1 else 0) - c)))
  | .int i => .ok (.float (.finite ((i : ℚ) - c)))
  | .float (.finite q) => .ok (.float (.finite (q - c)))
  | .float f => .ok (.float f)
  | _ => .error "unsupported operand type(s) for -"

/-- The `glacier_info` dict as `app.py` builds it (line 161): `name` via
`.get` with default, numeric `lat`/`lon` always present. -/
structure GlacierInfo where
  name : Option String
  lat : ℚ
  lon : ℚ

/-- The `climate_data` dict (app.py line 225). -/
structure ClimateData where
  variable_ : Option String
  description : Option String

/-- The `date_info` dict (app.py line 162). -/
structure DateInfo where
  date : Option String

/-- The opening f-string of `create_context` (llm_core.py 26–36). -/
def contextHeader (g : GlacierInfo) (c : ClimateData) (d : DateInfo) : String :=
  "\n        **GLACIER ANALYSIS CONTEXT:**\n\n        **Location Information:**\n        - Glacier/Location: " ++
    g.name.getD ("Unknown") ++
    "\n        - Coordinates: " ++ formatFixed 4 g.lat ++ "°N, " ++
    formatFixed 4 g.lon ++
    "°E\n        - Analysis Date: " ++ d.date.getD ("N/A") ++
    "\n\n        **Climate Data (Source: FLDAS):**\n        - Selected Variable: " ++
    c.description.getD ("N/A") ++ "\n        "

/-- The `if stats_data:` block of `create_context` (llm_core.py 38–44),
entered with a truthy (nonempty) dict. -/
def statsBlock (c : ClimateData) (sd : PyDict) : Except String String :=
  let key := (match c.variable_ with
    | some s => s
    | none => "None") ++ "_mean"
  let mean_temp_k := PyDict.get sd key
  let truthy := match mean_temp_k with
    | some v => pyTruthy v
    | none => false
  if truthy && (c.variable_ == some ("Tair_f_tavg")) then
    match mean_temp_k with
    | some v => do
        let kStr ← pyFormatF 2 v
        let vc ← pySub (273.15 : ℚ) v
        let cStr ← pyFormatF 2 vc
        pure ("- Mean Temperature: " ++ kStr ++ " K (" ++ cStr ++ " °C)\n")
    | none => pure ""
  else do
    let firstKey := match sd with
      | [] => ""
      | e :: _ => e.1
    let fmt ← pyFormatF 4 (PyDict.getD sd firstKey (.str ("N/A")))
    pure ("- Mean Value: " ++ fmt ++ "\n")

/-- `avg_vel_str` of `create_context` (llm_core.py 47–50):
`f"{avg_vel:.4f}" if isinstance(avg_vel, (int, float)) else "Not
Calculated"` where `avg_vel = velocity_data.get('avg_velocity')`. -/
def avgVelStr (vd : PyDict) : String :=
  match PyDict.get vd ("avg_velocity") with
  | some v => if pyIsNumber v then pyFormatNum 4 v else "Not Calculated"
  | none => "Not Calculated"

/-- `max_vel_str` of `create_context` (llm_core.py 48–51). -/
def maxVelStr (vd : PyDict) : String :=
  match PyDict.get vd ("max_velocity") with
  | some v => if pyIsNumber v then pyFormatNum 4 v else "Not Calculated"
  | none => "Not Calculated"

/-- The `if velocity_data:` f-string block of `create_context`
(llm_core.py 53–58). -/
def velocitySection (vd : PyDict) : String :=
  "\n        **Glacier Velocity Analysis (Source: Sentinel-2):**\n        - Time Period: " ++
    pyStr (PyDict.getD vd ("date1") (.str ("N/A"))) ++ " to " ++
    pyStr (PyDict.getD vd ("date2") (.str ("N/A"))) ++
    "\n        - Average Velocity: " ++ avgVelStr vd ++
    " m/day\n        - Max Velocity: " ++ maxVelStr vd ++ " m/day\n        "

/-- The fixed domain-background block of `create_context`
(llm_core.py 60–66). -/
def scientificBackground : String :=
  "\n        **Scientific Background:**\n        - Glacier velocity often increases with temperature due to surface meltwater lubricating the glacier bed.\n        - Summer velocities are typically higher than winter velocities.\n        - Air temperature is a primary driver of glacier melt. A mean temperature above 0°C is significant.\n        - Snowfall (accumulation) and melting (ablation) determine a glacier's mass balance and health.\n        "

/-- `GlacierQA.create_context` (llm_core.py 24–67).  `Except.error` models
an exception raised by a Python format/subtraction on an unsupported
value; the velocity section itself is total. -/
def createContext (g : GlacierInfo) (c : ClimateData) (d : DateInfo)
    (stats_data : Option PyDict) (velocity_data : Option PyDict) :
    Except String String := do
  let base := contextHeader g c d
  let statsPart ← match stats_data with
    | some sd => if sd.isEmpty then pure "" else statsBlock c sd
    | none => pure ""
  let velPart := match velocity_data with
    | some vd => if vd.isEmpty then "" else velocitySection vd
    | none => ""
  pure (base ++ statsPart ++ velPart ++ scientificBackground)

/-- `GlacierQA.suggest_questions` (llm_core.py 88–99). -/
def suggest_questions (glacier_name climate_variable : String)
    (has_velocity : Bool) : List String :=
  ["How might current " ++ climate_variable ++ " conditions affect " ++
     glacier_name ++ "?",
   "What does this " ++ climate_variable ++
     " data tell us about the glacier's health?"] ++
  (if has_velocity then
    ["How does the measured velocity relate to the climate conditions?",
     "Is this velocity typical for a glacier in this region?"]
   else [])

/-- The result dict of `calculate_velocity` viewed as the Python dict the
app stores in `st.session_state.velocity_result` (llm_core.py 135/151/157–160). -/
def toPyDict : VelocityResult → PyDict
  | .failure e => [("success", .bool false), ("error", .str e)]
  | .success f =>
      [("success", .bool true), ("velocity_m_day", .opaqueV),
       ("glacier_polygons", .opaqueV),
       ("time_gap_days", .int (f.time_gap_days : ℤ)),
       ("stats", .opaqueV), ("analysis_dates", .opaqueV)]

/-- The `velocity_data` argument app.py line 232 passes to
`render_ai_assistant_tab`: `st.session_state.get('velocity_result')`, the
raw result dict regardless of its `success` flag. -/
def aiTabVelocityArg (vr : Option VelocityResult) : Option PyDict :=
  vr.map toPyDict

/-- `has_velocity = velocity_data is not None` (llm_core.py 239). -/
def aiTabHasVelocity (vr : Option VelocityResult) : Bool :=
  (aiTabVelocityArg vr).isSome

/-- The suggested questions shown by `render_ai_assistant_tab`
(llm_core.py 240). -/
def aiTabSuggestions (glacier_name climate_desc : String)
    (vr : Option VelocityResult) : List String :=
  suggest_questions glacier_name climate_desc (aiTabHasVelocity vr)

/-- The context `render_ai_assistant_tab` builds for the model
(llm_core.py 230) from the app.py call site. -/
def aiTabContext (g : GlacierInfo) (c : ClimateData) (d : DateInfo)
    (sd : Option PyDict) (vr : Option VelocityResult) : Except String String :=
  createContext g c d sd (aiTabVelocityArg vr)

/-! ## Concrete backends used by witnesses -/

/-- One glacier polygon: the half-plane of pixels with nonpositive x. -/
def demoPoly : Pixel → Bool := fun p => decide (p.1 ≤ 0)

/-- A backend with one image per window, constant displacement `(3, 4)`,
the single polygon `demoPoly`, and two sample pixels, one of them outside
the polygon. -/
def demoBackend : GeoBackend where
  collectionSize := fun _ _ _ => .ok 1
  bestImage := fun _ _ _ => 7
  displacement := fun _ _ _ _ _ _ => some (3, 4)
  glaciers := fun _ => .ok [demoPoly]
  samplePixels := fun _ _ => .ok [((0 : ℤ), (0 : ℤ)), ((3 : ℤ), (3 : ℤ))]

/-- A backend whose first search window is empty (0 images) and whose
second has 3. -/
def lowImageryBackend : GeoBackend :=
  { demoBackend with
      collectionSize := fun _ s _ => if s == "2023-05-02" then .ok 0 else .ok 3 }

/-- A backend with plenty of imagery but no glacier polygons in the area. -/
def noGlacierBackend : GeoBackend :=
  { demoBackend with
      collectionSize := fun _ _ _ => .ok 2
      glaciers := fun _ => .ok [] }

/-- The `velocity_m_day` field of a success dict. -/
def velocityFieldOf : VelocityResult → Option (Pixel → Option ℝ)
  | .failure _ => none
  | .success f => some f.velocity_m_day

/-! ## Helper lemmas -/

lemma str_append_empty (s : String) : s ++ "" = s := by
  cases s
  simp [String.instAppend, String.append]

lemma filterMap_maskedBy (r : Pixel → Option ℝ) (polys : List (Pixel → Bool))
    (l : List Pixel) :
    l.filterMap (maskedBy r polys) =
      (l.filter (fun p => glacierMask polys p)).filterMap r := by
  induction l with
  | nil => rfl
  | cons a t ih =>
      by_cases h : glacierMask polys a
      · simp [List.filterMap_cons, List.filter_cons, h, maskedBy, ih]
      · simp [List.filterMap_cons, List.filter_cons, h, maskedBy, ih]

lemma clampGap_pos (dt1 dt2 : ℤ) : 0 < clampGap dt1 dt2 := by
  unfold clampGap
  split
  · exact Nat.one_pos
  · omega

/-! ## Claims -/

/-- C6: for all date pairs with date1 ≥ date2, the velocity click handler
rejects the action with a validation error before any backend call: the
backend trace is empty and the stored latest velocity result (the whole
session state) is unchanged. -/
theorem click_rejects_unordered_dates (B : GeoBackend) (lat lon : ℚ)
    (date1 date2 : ℤ) (s : SessionState) (h : date2 ≤ date1) :
    velocityClick B lat lon date1 date2 s =
      (s, ["End date must be after start date."], []) := by
  simp [velocityClick, h]

/-- Witness for C6 at a concrete rejected input (equal dates). -/
theorem click_rejects_unordered_dates_witness :
    velocityClick demoBackend 30.32 79.96 (daysFromCivil 2023 8 31)
        (daysFromCivil 2023 8 31) ⟨none⟩ =
      (⟨none⟩, ["End date must be after start date."], []) :=
  click_rejects_unordered_dates demoBackend 30.32 79.96 _ _ ⟨none⟩ le_rfl

/-- C2: if either ±30-day window yields zero candidate images,
`calculate_velocity` returns the failure dict whose error message reports
the candidate counts of both windows, and no success dict (hence no speed
field) is produced. -/
theorem insufficient_imagery_reports_both_counts (B : GeoBackend)
    (lat lon buffer_km : ℚ) (date1 date2 : String) (dt1 dt2 : ℤ) (n1 n2 : ℕ)
    (h1 : parseDate date1 = .ok dt1) (h2 : parseDate date2 = .ok dt2)
    (hs1 : B.collectionSize (mkAoi lat lon buffer_km) (windowStart dt1)
      (windowStop dt1) = .ok n1)
    (hs2 : B.collectionSize (mkAoi lat lon buffer_km) (windowStart dt2)
      (windowStop dt2) = .ok n2)
    (hz : n1 = 0 ∨ n2 = 0) :
    (calculate_velocity B lat lon date1 date2 buffer_km).1 =
      .failure (insufficientMsg n1 n2) ∧
    isSuccess (calculate_velocity B lat lon date1 date2 buffer_km).1 = false := by
  have key : calculate_velocity B lat lon date1 date2 buffer_km =
      (.failure (insufficientMsg n1 n2),
       [.sizeQuery (mkAoi lat lon buffer_km) (windowStart dt1) (windowStop dt1),
        .sizeQuery (mkAoi lat lon buffer_km) (windowStart dt2) (windowStop dt2)]) := by
    unfold calculate_velocity calcBody
    rw [h1, h2]
    simp only [hs1, hs2]
    rw [if_pos hz]
  rw [key]
  exact ⟨rfl, rfl⟩

/-- Witness for C2: first window empty, second has 3 images. -/
theorem insufficient_imagery_witness :
    (calculate_velocity lowImageryBackend 30.32 79.96 ("2023-06-01")
        ("2023-08-31") 5).1 =
      .failure ("Insufficient cloud-free images found. Period 1 had 0 images, Period 2 had 3. Try different dates.") ∧
    isSuccess (calculate_velocity lowImageryBackend 30.32 79.96 ("2023-06-01")
        ("2023-08-31") 5).1 = false :=
  insufficient_imagery_reports_both_counts lowImageryBackend 30.32 79.96 5
    ("2023-06-01") ("2023-08-31") (daysFromCivil 2023 6 1)
    (daysFromCivil 2023 8 31) 0 3 (by decide) (by decide) (by decide) (by decide)
    (Or.inl rfl)

/-- Full evaluation of `calculate_velocity` on the success path, given the
outcome of every backend query. -/
lemma calc_success_eval (B : GeoBackend) (lat lon buffer_km : ℚ)
    (date1 date2 : String) (dt1 dt2 : ℤ) (n1 n2 : ℕ)
    (polys : List (Pixel → Bool)) (samples : List Pixel)
    (h1 : parseDate date1 = .ok dt1) (h2 : parseDate date2 = .ok dt2)
    (hs1 : B.collectionSize (mkAoi lat lon buffer_km) (windowStart dt1)
      (windowStop dt1) = .ok n1)
    (hs2 : B.collectionSize (mkAoi lat lon buffer_km) (windowStart dt2)
      (windowStop dt2) = .ok n2)
    (hn1 : n1 ≠ 0) (hn2 : n2 ≠ 0)
    (hg : B.glaciers (mkAoi lat lon buffer_km) = .ok polys)
    (hp : polys ≠ [])
    (hsp : B.samplePixels (mkAoi lat lon buffer_km) 100 = .ok samples) :
    calculate_velocity B lat lon date1 date2 buffer_km =
      (.success ⟨maskedBy (speedRaster B
            (B.bestImage (mkAoi lat lon buffer_km) (windowStart dt2) (windowStop dt2))
            (B.bestImage (mkAoi lat lon buffer_km) (windowStart dt1) (windowStop dt1))
            (clampGap dt1 dt2)) polys,
          polys, clampGap dt1 dt2,
          reduceStats (samples.filterMap (maskedBy (speedRaster B
            (B.bestImage (mkAoi lat lon buffer_km) (windowStart dt2) (windowStop dt2))
            (B.bestImage (mkAoi lat lon buffer_km) (windowStart dt1) (windowStop dt1))
            (clampGap dt1 dt2)) polys)),
          (date1, date2)⟩,
        [.sizeQuery (mkAoi lat lon buffer_km) (windowStart dt1) (windowStop dt1),
         .sizeQuery (mkAoi lat lon buffer_km) (windowStart dt2) (windowStop dt2),
         .imageSelect (mkAoi lat lon buffer_km) (windowStart dt1) (windowStop dt1),
         .imageSelect (mkAoi lat lon buffer_km) (windowStart dt2) (windowStop dt2),
         .displacementCall ("B8") 100 256,
         .glacierQuery (mkAoi lat lon buffer_km),
         .reduceQuery (mkAoi lat lon buffer_km) 100]) := by
  unfold calculate_velocity calcBody
  rw [h1, h2]
  simp only [hs1, hs2, hg, hsp, hn1, hn2, List.length_eq_zero, hp, or_self,
    if_false]

/-- C4: on any run that reaches a result, the elapsed-days value returned in
the success dict is `abs(date2 - date1)` in calendar days clamped below by 1
(`clampGap`), the divisor of the speed raster is that same value, and it is
never zero. -/
theorem elapsed_days_clamped_abs (B : GeoBackend) (lat lon buffer_km : ℚ)
    (date1 date2 : String) (dt1 dt2 : ℤ) (n1 n2 : ℕ)
    (polys : List (Pixel → Bool)) (samples : List Pixel)
    (h1 : parseDate date1 = .ok dt1) (h2 : parseDate date2 = .ok dt2)
    (hs1 : B.collectionSize (mkAoi lat lon buffer_km) (windowStart dt1)
      (windowStop dt1) = .ok n1)
    (hs2 : B.collectionSize (mkAoi lat lon buffer_km) (windowStart dt2)
      (windowStop dt2) = .ok n2)
    (hn1 : n1 ≠ 0) (hn2 : n2 ≠ 0)
    (hg : B.glaciers (mkAoi lat lon buffer_km) = .ok polys)
    (hp : polys ≠ [])
    (hsp : B.samplePixels (mkAoi lat lon buffer_km) 100 = .ok samples) :
    timeGapOf (calculate_velocity B lat lon date1 date2 buffer_km).1 =
      some (clampGap dt1 dt2) ∧
    clampGap dt1 dt2 = (if (dt2 - dt1).natAbs = 0 then 1 else (dt2 - dt1).natAbs) ∧
    0 < clampGap dt1 dt2 ∧
    velocityFieldOf (calculate_velocity B lat lon date1 date2 buffer_km).1 =
      some (maskedBy (speedRaster B
        (B.bestImage (mkAoi lat lon buffer_km) (windowStart dt2) (windowStop dt2))
        (B.bestImage (mkAoi lat lon buffer_km) (windowStart dt1) (windowStop dt1))
        (clampGap dt1 dt2)) polys) := by
  refine ⟨?_, rfl, clampGap_pos dt1 dt2, ?_⟩ <;>
    rw [calc_success_eval B lat lon buffer_km date1 date2 dt1 dt2 n1 n2 polys
      samples h1 h2 hs1 hs2 hn1 hn2 hg hp hsp] <;> rfl

/-- Witness for C4: dates 2023-06-01 and 2023-08-31 give 91 elapsed days. -/
theorem elapsed_days_clamped_abs_witness :
    timeGapOf (calculate_velocity demoBackend 30.32 79.96 ("2023-06-01")
        ("2023-08-31") 5).1 = some 91 ∧
    (91 : ℕ) = (if ((19600 : ℤ) - 19509).natAbs = 0 then 1
      else ((19600 : ℤ) - 19509).natAbs) ∧
    (0 : ℕ) < 91 ∧
    velocityFieldOf (calculate_velocity demoBackend 30.32 79.96 ("2023-06-01")
        ("2023-08-31") 5).1 =
      some (maskedBy (speedRaster demoBackend 7 7 91) [demoPoly]) :=
  elapsed_days_clamped_abs demoBackend 30.32 79.96 5 ("2023-06-01")
    ("2023-08-31") 19509 19600 1 1 [demoPoly]
    [((0 : ℤ), (0 : ℤ)), ((3 : ℤ), (3 : ℤ))] (by decide) (by decide) rfl rfl
    one_ne_zero one_ne_zero rfl (List.cons_ne_nil _ _) rfl

/-- C3: the speed field of a success result is the hypotenuse of the
displacement channels divided by the elapsed days, masked by the glacier
polygons intersecting the analysis area: every pixel outside all polygons
reads no-data, and the `{mean, min, max}` statistics reduce only the
samples inside the polygons (masked pixels are filtered out before
reduction). -/
theorem speed_field_masked_to_glaciers (B : GeoBackend)
    (lat lon buffer_km : ℚ) (date1 date2 : String) (dt1 dt2 : ℤ) (n1 n2 : ℕ)
    (polys : List (Pixel → Bool)) (samples : List Pixel)
    (h1 : parseDate date1 = .ok dt1) (h2 : parseDate date2 = .ok dt2)
    (hs1 : B.collectionSize (mkAoi lat lon buffer_km) (windowStart dt1)
      (windowStop dt1) = .ok n1)
    (hs2 : B.collectionSize (mkAoi lat lon buffer_km) (windowStart dt2)
      (windowStop dt2) = .ok n2)
    (hn1 : n1 ≠ 0) (hn2 : n2 ≠ 0)
    (hg : B.glaciers (mkAoi lat lon buffer_km) = .ok polys)
    (hp : polys ≠ [])
    (hsp : B.samplePixels (mkAoi lat lon buffer_km) 100 = .ok samples) :
    (calculate_velocity B lat lon date1 date2 buffer_km).1 =
      .success ⟨maskedBy (speedRaster B
            (B.bestImage (mkAoi lat lon buffer_km) (windowStart dt2) (windowStop dt2))
            (B.bestImage (mkAoi lat lon buffer_km) (windowStart dt1) (windowStop dt1))
            (clampGap dt1 dt2)) polys,
          polys, clampGap dt1 dt2,
          reduceStats ((samples.filter (fun p => glacierMask polys p)).filterMap
            (speedRaster B
              (B.bestImage (mkAoi lat lon buffer_km) (windowStart dt2) (windowStop dt2))
              (B.bestImage (mkAoi lat lon buffer_km) (windowStart dt1) (windowStop dt1))
              (clampGap dt1 dt2))),
          (date1, date2)⟩ ∧
    (∀ p : Pixel, glacierMask polys p = false →
      maskedBy (speedRaster B
        (B.bestImage (mkAoi lat lon buffer_km) (windowStart dt2) (windowStop dt2))
        (B.bestImage (mkAoi lat lon buffer_km) (windowStart dt1) (windowStop dt1))
        (clampGap dt1 dt2)) polys p = none) := by
  constructor
  · rw [calc_success_eval B lat lon buffer_km date1 date2 dt1 dt2 n1 n2 polys
      samples h1 h2 hs1 hs2 hn1 hn2 hg hp hsp]
    rw [filterMap_maskedBy]
  · intro p hmask
    simp [maskedBy, hmask]

/-- Witness for C3: concrete backend; the sample pixel `(3, 3)` lies outside
the polygon and reads no-data; only the in-polygon sample `(0, 0)` reaches
the statistics reducer. -/
theorem speed_field_masked_to_glaciers_witness :
    (calculate_velocity demoBackend 30.32 79.96 ("2023-06-01")
        ("2023-08-31") 5).1 =
      .success ⟨maskedBy (speedRaster demoBackend 7 7 91) [demoPoly],
        [demoPoly], 91,
        reduceStats (([((0 : ℤ), (0 : ℤ))]).filterMap
          (speedRaster demoBackend 7 7 91)),
        ("2023-06-01", "2023-08-31")⟩ ∧
    maskedBy (speedRaster demoBackend 7 7 91) [demoPoly] ((3 : ℤ), (3 : ℤ)) =
      none :=
  ⟨(speed_field_masked_to_glaciers demoBackend 30.32 79.96 5 ("2023-06-01")
      ("2023-08-31") 19509 19600 1 1 [demoPoly]
      [((0 : ℤ), (0 : ℤ)), ((3 : ℤ), (3 : ℤ))] (by decide) (by decide) rfl rfl
      one_ne_zero one_ne_zero rfl (List.cons_ne_nil _ _) rfl).1,
   (speed_field_masked_to_glaciers demoBackend 30.32 79.96 5 ("2023-06-01")
      ("2023-08-31") 19509 19600 1 1 [demoPoly]
      [((0 : ℤ), (0 : ℤ)), ((3 : ℤ), (3 : ℤ))] (by decide) (by decide) rfl rfl
      one_ne_zero one_ne_zero rfl (List.cons_ne_nil _ _) rfl).2
     ((3 : ℤ), (3 : ℤ)) rfl⟩

/-- C5: when zero glacier polygons intersect the analysis area but both
windows hold imagery, `calculate_velocity` returns the failure dict with the
`NoGlacierCoverage` message; the recorded backend trace shows the polygon
check strictly after imagery selection, and no zonal-statistics
(`reduceRegion`) call ever happens. -/
theorem no_glacier_coverage_failure (B : GeoBackend)
    (lat lon buffer_km : ℚ) (date1 date2 : String) (dt1 dt2 : ℤ) (n1 n2 : ℕ)
    (h1 : parseDate date1 = .ok dt1) (h2 : parseDate date2 = .ok dt2)
    (hs1 : B.collectionSize (mkAoi lat lon buffer_km) (windowStart dt1)
      (windowStop dt1) = .ok n1)
    (hs2 : B.collectionSize (mkAoi lat lon buffer_km) (windowStart dt2)
      (windowStop dt2) = .ok n2)
    (hn1 : n1 ≠ 0) (hn2 : n2 ≠ 0)
    (hg : B.glaciers (mkAoi lat lon buffer_km) = .ok []) :
    (calculate_velocity B lat lon date1 date2 buffer_km).1 =
      .failure noGlaciersMsg ∧
    (calculate_velocity B lat lon date1 date2 buffer_km).2 =
      [.sizeQuery (mkAoi lat lon buffer_km) (windowStart dt1) (windowStop dt1),
       .sizeQuery (mkAoi lat lon buffer_km) (windowStart dt2) (windowStop dt2),
       .imageSelect (mkAoi lat lon buffer_km) (windowStart dt1) (windowStop dt1),
       .imageSelect (mkAoi lat lon buffer_km) (windowStart dt2) (windowStop dt2),
       .displacementCall ("B8") 100 256,
       .glacierQuery (mkAoi lat lon buffer_km)] ∧
    noReduceQuery (calculate_velocity B lat lon date1 date2 buffer_km).2 =
      true := by
  have key : calculate_velocity B lat lon date1 date2 buffer_km =
      (.failure noGlaciersMsg,
       [.sizeQuery (mkAoi lat lon buffer_km) (windowStart dt1) (windowStop dt1),
        .sizeQuery (mkAoi lat lon buffer_km) (windowStart dt2) (windowStop dt2),
        .imageSelect (mkAoi lat lon buffer_km) (windowStart dt1) (windowStop dt1),
        .imageSelect (mkAoi lat lon buffer_km) (windowStart dt2) (windowStop dt2),
        .displacementCall ("B8") 100 256,
        .glacierQuery (mkAoi lat lon buffer_km)]) := by
    unfold calculate_velocity calcBody
    rw [h1, h2]
    simp only [hs1, hs2, hg, hn1, hn2, or_self, if_false, List.length_nil,
      eq_self_iff_true, if_true]
  rw [key]
  exact ⟨rfl, rfl, by simp [noReduceQuery, isReduceQuery]⟩

/-- Witness for C5: both windows report 2 images but the area holds no
glacier polygon. -/
theorem no_glacier_coverage_failure_witness :
    (calculate_velocity noGlacierBackend 30.32 79.96 ("2023-06-01")
        ("2023-08-31") 5).1 =
      .failure ("No GLIMS glacier polygons found in the analysis area.") ∧
    (calculate_velocity noGlacierBackend 30.32 79.96 ("2023-06-01")
        ("2023-08-31") 5).2 =
      [.sizeQuery (mkAoi 30.32 79.96 5) ("2023-05-02") ("2023-07-01"),
       .sizeQuery (mkAoi 30.32 79.96 5) ("2023-08-01") ("2023-09-30"),
       .imageSelect (mkAoi 30.32 79.96 5) ("2023-05-02") ("2023-07-01"),
       .imageSelect (mkAoi 30.32 79.96 5) ("2023-08-01") ("2023-09-30"),
       .displacementCall ("B8") 100 256,
       .glacierQuery (mkAoi 30.32 79.96 5)] ∧
    noReduceQuery (calculate_velocity noGlacierBackend 30.32 79.96
        ("2023-06-01") ("2023-08-31") 5).2 = true :=
  no_glacier_coverage_failure noGlacierBackend 30.32 79.96 5 ("2023-06-01")
    ("2023-08-31") 19509 19600 2 2 (by decide) (by decide) rfl rfl
    two_ne_zero two_ne_zero rfl

/-- C9: `calculate_velocity` is total: every call produces a result dict
that is either a success or a failure carrying an error message; any
exception escaping the body (backend faults as well as date parsing) is
converted to a failure whose message is the exception text prefixed with
"Velocity calculation failed: ". -/
theorem calculate_velocity_never_raises (B : GeoBackend)
    (lat lon buffer_km : ℚ) (date1 date2 : String) :
    (isSuccess (calculate_velocity B lat lon date1 date2 buffer_km).1 = true ∨
     ∃ e, (calculate_velocity B lat lon date1 date2 buffer_km).1 =
       .failure e) ∧
    (∀ e, (calcBody B lat lon date1 date2 buffer_km).2 = .error e →
      (calculate_velocity B lat lon date1 date2 buffer_km).1 =
        .failure ("Velocity calculation failed: " ++ e)) ∧
    (∀ e, parseDate date1 = .error e →
      (calculate_velocity B lat lon date1 date2 buffer_km).1 =
        .failure ("Velocity calculation failed: " ++ e)) := by
  refine ⟨?_, ?_, ?_⟩
  · rcases hh : calcBody B lat lon date1 date2 buffer_km with ⟨t, r⟩
    cases r with
    | error e =>
        right
        exact ⟨"Velocity calculation failed: " ++ e,
          by simp [calculate_velocity, hh]⟩
    | ok v =>
        cases v with
        | failure e =>
            right
            exact ⟨e, by simp [calculate_velocity, hh]⟩
        | success f =>
            left
            simp [calculate_velocity, hh, isSuccess]
  · intro e he
    rcases hh : calcBody B lat lon date1 date2 buffer_km with ⟨t, r⟩
    rw [hh] at he
    simp only at he
    subst he
    simp [calculate_velocity, hh]
  · intro e he
    simp [calculate_velocity, calcBody, he]

/-- Witness for C9: a malformed date string yields the wrapped failure. -/
theorem calculate_velocity_never_raises_witness :
    (calculate_velocity demoBackend 30.32 79.96 ("garbage") ("2023-08-31")
        5).1 =
      .failure ("Velocity calculation failed: time data 'garbage' does not match format '%Y-%m-%d'") :=
  (calculate_velocity_never_raises demoBackend 30.32 79.96 5 ("garbage")
      ("2023-08-31")).2.2
    ("time data 'garbage' does not match format '%Y-%m-%d'") (by decide)

/-- Every geometry-bearing backend call `calculate_velocity` records uses
the analysis area built from its own `buffer_km` argument. -/
lemma calcBody_trace_uses_aoi (B : GeoBackend) (lat lon buffer_km : ℚ)
    (date1 date2 : String) :
    ((calcBody B lat lon date1 date2 buffer_km).1).all
      (eventUsesAoi (mkAoi lat lon buffer_km)) = true := by
  simp only [calcBody]
  repeat' split
  all_goals simp [eventUsesAoi]

/-- Every geometry-bearing backend call `calculate_velocity` records uses
the analysis area built from its own `buffer_km` argument. -/
lemma calc_trace_uses_aoi (B : GeoBackend) (lat lon buffer_km : ℚ)
    (date1 date2 : String) :
    ((calculate_velocity B lat lon date1 date2 buffer_km).2).all
      (eventUsesAoi (mkAoi lat lon buffer_km)) = true := by
  have h := calcBody_trace_uses_aoi B lat lon buffer_km date1 date2
  unfold calculate_velocity
  rcases hh : calcBody B lat lon date1 date2 buffer_km with ⟨t, r⟩
  rw [hh] at h
  cases r <;> simpa using h

/-- C1 (amended): the velocity button handler always invokes
`calculate_velocity` with `buffer_km = 5` — the literal in llm_core.py line
195, not the user-selected "Analysis Radius (km)" slider value — so every
backend call of the action is made against the 5-km disk centered at the
chosen location; the estimator itself does build its analysis area as the
disk of radius `buffer_km` kilometers centered at its location argument. -/
theorem velocity_radius_hardcoded_five (B : GeoBackend) (lat lon : ℚ)
    (date1 date2 : ℤ) (s : SessionState) (h : date1 < date2) :
    ((velocityClick B lat lon date1 date2 s).2.2).all
      (eventUsesAoi (mkAoi lat lon 5)) = true ∧
    (∀ (la lo buffer_km : ℚ) (d1 d2 : String),
      ((calculate_velocity B la lo d1 d2 buffer_km).2).all
        (eventUsesAoi (mkAoi la lo buffer_km)) = true) := by
  constructor
  · have hcond : ¬ (date2 ≤ date1) := not_le.mpr h
    rw [velocityClick, if_neg hcond]
    exact calc_trace_uses_aoi B lat lon 5 (fmtDate date1) (fmtDate date2)
  · intro la lo bk d1 d2
    exact calc_trace_uses_aoi B la lo bk d1 d2

/-- Counterexample for C1 as stated: with the slider at 10 km, the first
backend call of the velocity action still queries the 5000-m disk, which is
not the 10-km analysis area the claim promises. -/
theorem velocity_radius_ignores_slider_cx :
    ((velocityClick demoBackend 30 79 19509 19600 ⟨none⟩).2.2).head? =
      some (.sizeQuery (mkAoi 30 79 5) ("2023-05-02") ("2023-07-01")) ∧
    mkAoi 30 79 5 ≠ mkAoi 30 79 10 := by
  refine ⟨rfl, fun hcontra => ?_⟩
  have h5 : (5 : ℚ) * 1000 = 10 * 1000 := congrArg Geom.radius_m hcontra
  norm_num at h5

/-- Witness for C1 (amended) at a concrete accepted date pair. -/
theorem velocity_radius_hardcoded_five_witness :
    ((19509 : ℤ) < 19600) ∧
    ((velocityClick demoBackend 30 79 19509 19600 ⟨none⟩).2.2).all
      (eventUsesAoi (mkAoi 30 79 5)) = true :=
  ⟨by decide,
   (velocity_radius_hardcoded_five demoBackend 30 79 19509 19600
      ⟨none⟩ (by decide)).1⟩

/-- C7 (amended): with a (truthy) velocity dict present, the context text
appends the velocity section; the average-velocity entry is rendered to 4
decimal places when the value is an `int` or a finite `float`, and reads
"Not Calculated" exactly when the value is absent, `None`, or of a
non-numeric type — a non-finite float passes the `isinstance` check and is
rendered by the float formatter instead.  No case raises. -/
theorem velocity_context_not_calculated_rule (g : GlacierInfo)
    (c : ClimateData) (d : DateInfo) (vd : PyDict) (hvd : vd ≠ []) :
    createContext g c d none (some vd) =
      .ok (contextHeader g c d ++ velocitySection vd ++
        scientificBackground) ∧
    (∀ q : ℚ, PyDict.get vd ("avg_velocity") = some (.float (.finite q)) →
      avgVelStr vd = formatFixed 4 q) ∧
    (∀ i : ℤ, PyDict.get vd ("avg_velocity") = some (.int i) →
      avgVelStr vd = formatFixed 4 (i : ℚ)) ∧
    (∀ v : PyVal, PyDict.get vd ("avg_velocity") = some v →
      pyIsNumber v = false → avgVelStr vd = "Not Calculated") ∧
    (PyDict.get vd ("avg_velocity") = none →
      avgVelStr vd = "Not Calculated") := by
  refine ⟨?_, ?_, ?_, ?_, ?_⟩
  · have key : createContext g c d none (some vd) =
        .ok (((contextHeader g c d ++ "") ++ velocitySection vd) ++
          scientificBackground) := by
      cases vd with
      | nil => exact absurd rfl hvd
      | cons a t => rfl
    rw [key, str_append_empty]
  · intro q hq
    simp [avgVelStr, hq, pyIsNumber, pyFormatNum]
  · intro i hi
    simp [avgVelStr, hi, pyIsNumber, pyFormatNum]
  · intro v hv hnum
    simp [avgVelStr, hv, hnum]
  · intro hnone
    simp [avgVelStr, hnone]

/-- Counterexample for C7 as stated: an `avg_velocity` of `float('inf')` is
not a finite number, yet the context renders "inf", not "Not Calculated". -/
theorem velocity_context_inf_cx :
    avgVelStr [("avg_velocity", .float .inf)] = "inf" ∧
    ("inf" : String) ≠ "Not Calculated" ∧
    velocitySection [("avg_velocity", .float .inf)] =
      "\n        **Glacier Velocity Analysis (Source: Sentinel-2):**\n        - Time Period: N/A to N/A\n        - Average Velocity: inf m/day\n        - Max Velocity: Not Calculated m/day\n        " := by
  exact ⟨rfl, by decide, rfl⟩

/-- Witness for C7 (amended): a finite average (5/4 m/day) formats to 4
decimals; a missing maximum would read "Not Calculated". -/
theorem velocity_context_not_calculated_rule_witness :
    createContext ⟨some ("Pindari Glacier"), 30, 79⟩
        ⟨some ("Tair_f_tavg"), some ("Air Temperature")⟩
        ⟨some ("2023-08-15")⟩ none
        (some [("avg_velocity", .float (.finite (5 / 4)))]) =
      .ok (contextHeader ⟨some ("Pindari Glacier"), 30, 79⟩
          ⟨some ("Tair_f_tavg"), some ("Air Temperature")⟩
          ⟨some ("2023-08-15")⟩ ++
        velocitySection [("avg_velocity", .float (.finite (5 / 4)))] ++
        scientificBackground) ∧
    avgVelStr [("avg_velocity", .float (.finite (5 / 4)))] =
      formatFixed 4 (5 / 4) ∧
    avgVelStr [("max_velocity", .int 2)] = "Not Calculated" :=
  ⟨(velocity_context_not_calculated_rule ⟨some ("Pindari Glacier"), 30, 79⟩
      ⟨some ("Tair_f_tavg"), some ("Air Temperature")⟩ ⟨some ("2023-08-15")⟩
      [("avg_velocity", .float (.finite (5 / 4)))]
      (List.cons_ne_nil _ _)).1,
   (velocity_context_not_calculated_rule ⟨some ("Pindari Glacier"), 30, 79⟩
      ⟨some ("Tair_f_tavg"), some ("Air Temperature")⟩ ⟨some ("2023-08-15")⟩
      [("avg_velocity", .float (.finite (5 / 4)))]
      (List.cons_ne_nil _ _)).2.1 (5 / 4) rfl,
   (velocity_context_not_calculated_rule ⟨some ("Pindari Glacier"), 30, 79⟩
      ⟨some ("Tair_f_tavg"), some ("Air Temperature")⟩ ⟨some ("2023-08-15")⟩
      [("max_velocity", .int 2)] (List.cons_ne_nil _ _)).2.2.2.2 rfl⟩

/-- C8: the annual-speed metric of a successful velocity result is the
exact real product `mean_velocity * 365.25`, rounded only by the 1-decimal
display format; the same `mean_velocity` value feeds the 2-decimal
average metric. -/
theorem annual_speed_projection (f : VelocitySuccess) (m : ℝ)
    (hm : f.stats.velocity_mean = some m) :
    velocityMetrics (.success f) =
      some (formatFixedR 2 m ++ " m/day",
            formatFixedR 2 ((f.stats.velocity_max).getD 0) ++ " m/day",
            formatFixedR 1 (m * 365.25) ++ " m/year") := by
  simp [velocityMetrics, hm]

/-- Witness for C8 at a concrete success result with mean 2 m/day. -/
theorem annual_speed_projection_witness :
    velocityMetrics (.success ⟨fun _ => none, [demoPoly], 91,
        ⟨some 2, some 1, some 3⟩, ("2023-06-01", "2023-08-31")⟩) =
      some (formatFixedR 2 2 ++ " m/day", formatFixedR 2 3 ++ " m/day",
            formatFixedR 1 ((2 : ℝ) * 365.25) ++ " m/year") :=
  annual_speed_projection ⟨fun _ => none, [demoPoly], 91,
    ⟨some 2, some 1, some 3⟩, ("2023-06-01", "2023-08-31")⟩ 2 rfl

/-- C10: a stored velocity result with `success: false` is still passed to
the AI tab as a truthy dict: the context keeps the velocity section (with
"N/A" dates and "Not Calculated" velocities, since the failure dict lacks
those keys) and the suggested questions include the two velocity-specific
ones. -/
theorem failed_result_still_feeds_ai (err : String) (g : GlacierInfo)
    (c : ClimateData) (d : DateInfo) (gname cdesc : String) :
    aiTabContext g c d none (some (.failure err)) =
      .ok (contextHeader g c d ++
        velocitySection (toPyDict (.failure err)) ++ scientificBackground) ∧
    velocitySection (toPyDict (.failure err)) =
      "\n        **Glacier Velocity Analysis (Source: Sentinel-2):**\n        - Time Period: N/A to N/A\n        - Average Velocity: Not Calculated m/day\n        - Max Velocity: Not Calculated m/day\n        " ∧
    aiTabHasVelocity (some (.failure err)) = true ∧
    aiTabSuggestions gname cdesc (some (.failure err)) =
      ["How might current " ++ cdesc ++ " conditions affect " ++ gname ++
         "?",
       "What does this " ++ cdesc ++
         " data tell us about the glacier's health?",
       "How does the measured velocity relate to the climate conditions?",
       "Is this velocity typical for a glacier in this region?"] := by
  refine ⟨?_, rfl, rfl, rfl⟩
  have key : aiTabContext g c d none (some (.failure err)) =
      .ok (((contextHeader g c d ++ "") ++
        velocitySection (toPyDict (.failure err))) ++
        scientificBackground) := rfl
  rw [key, str_append_empty]
